import Mathlib

/-!
Verification development for the agentic evaluation backend
(master orchestrator, enqueue facade, queue client, db client).

The definitions below are a shallow embedding of the JavaScript source:
  - `masterOrchestrator.js` (dispatch loop, collector, finaliser, sweeper)
  - `queue/redisClient.js`  (queues, partial-result hash, retry helpers)
  - `queue/enqueue.js`      (enqueue facade, requeueFailedResponse)
  - `db/dbClient.js`        (getBatchProgress, unique index on evaluations)

JavaScript numbers that carry scores and weights are modelled as exact
rationals; the JavaScript falsy coercions (`x || d`) are modelled
explicitly by the `jsOr*` helpers, with `none` standing for
null / undefined / NaN where a field may be absent.
-/

/-- The five evaluation dimensions (config.DIMENSIONS). -/
inductive Dimension
  | instruction
  | hallucination
  | assumption
  | coherence
  | accuracy
deriving DecidableEq, Repr

/-- config.DIMENSIONS, in source order. -/
def DIMENSIONS : List Dimension :=
  [.instruction, .hallucination, .assumption, .coherence, .accuracy]

/-- config.DEFAULT_WEIGHTS: instruction 0.2, hallucination 0.25,
assumption 0.2, coherence 0.15, accuracy 0.2. -/
def DEFAULT_WEIGHTS : Dimension → ℚ
  | .instruction => 1/5
  | .hallucination => 1/4
  | .assumption => 1/5
  | .coherence => 3/20
  | .accuracy => 1/5

/-- config.MAX_RETRIES (default 3). -/
def MAX_RETRIES : ℕ := 3

/-- Record (response) statuses used by the db client. -/
inductive Status
  | pending
  | queued
  | processing
  | completed
  | failed
  | cancelled
deriving DecidableEq, Repr

/-- JavaScript `x || d` on a numeric field: null / undefined / NaN are
modelled as `none`; the number 0 is falsy as well. -/
def jsOrQ : Option ℚ → ℚ → ℚ
  | none, d => d
  | some x, d => if x = 0 then d else x

/-- JavaScript truthiness of a string field (null / undefined / "" are
falsy). -/
def jsTruthyStr : Option String → Bool
  | none => false
  | some s => decide (s ≠ "")

/-- JavaScript `e || null` on a string field. -/
def jsOrNull (e : Option String) : Option String :=
  if jsTruthyStr e then e else none

/-- JavaScript `n || d` on an integer field. -/
def jsOrNat : Option ℕ → ℕ → ℕ
  | none, d => d
  | some n, d => if n = 0 then d else n

/-- JavaScript `s || d` on a string field ("" is falsy). -/
def jsOrStr : Option String → String → String
  | none, d => d
  | some s, d => if s = "" then d else s

/-- The slice of a dimension result's `details` object that the
orchestrator reads (`result.details?.response_id`); everything else in
`details` is opaque. -/
structure Details where
  response_id : Option String
deriving DecidableEq, Repr

/-- JavaScript `details || {}`. -/
def jsOrDetails : Option Details → Details
  | none => ⟨none⟩
  | some d => d

/-- A dimension result as popped from the results queue
(dimensionWorker.js envelope). -/
structure IncomingResult where
  task_id : String
  dimension : Dimension
  response_id : String
  batch_id : String
  agent_id : String
  score : Option ℚ
  details : Option Details
  error : Option String
deriving DecidableEq, Repr

/-- The value stored per dimension in the partial-result hash
(masterOrchestrator.js processDimensionResult, redisClient.js
setPartialResult). The envelope's `response_id` is not part of it. -/
structure StoredResult where
  score : Option ℚ
  details : Details
  error : Option String
deriving DecidableEq, Repr

/-- processDimensionResult builds the stored value:
`{ score: score || 0.0, details: details || {}, error: error || null }`. -/
def mkStored (r : IncomingResult) : StoredResult :=
  { score := some (jsOrQ r.score 0)
    details := jsOrDetails r.details
    error := jsOrNull r.error }

/-- The partial-result hash `task:{id}:results`, one field per dimension. -/
def ResultHash := Dimension → Option StoredResult

/-- redis hSet on the hash. -/
def hashSet (h : ResultHash) (d : Dimension) (r : StoredResult) : ResultHash :=
  fun x => if x = d then some r else h x

/-- redis hLen on the hash: number of dimension fields present. -/
def hashLen (h : ResultHash) : ℕ :=
  (DIMENSIONS.filter (fun d => (h d).isSome)).length

/-- redisClient.setPartialResult as invoked by processDimensionResult:
store the (coerced) result under its dimension and return the new hash
together with the field count. -/
def storeDimensionResult (h : ResultHash) (r : IncomingResult) :
    ResultHash × ℕ :=
  let h2 := hashSet h r.dimension (mkStored r)
  (h2, hashLen h2)

/-- Accumulator of the finaliser's aggregation loop
(masterOrchestrator.js finalizeTaskWithInfo, lines 228-257). -/
structure AggAcc where
  finalScore : ℚ
  totalWeight : ℚ
  scores : List (Dimension × ℚ)
  hasErrors : Bool
  allErrors : List String
deriving DecidableEq, Repr

/-- Rendering of a dimension name (for error strings). -/
def dimName : Dimension → String
  | .instruction => "instruction"
  | .hallucination => "hallucination"
  | .assumption => "assumption"
  | .coherence => "coherence"
  | .accuracy => "accuracy"

/-- One iteration of the finaliser's `for (const dimension of
config.DIMENSIONS)` loop: a present result contributes
`score*weight` to the numerator and its full `weight` to the
denominator whether or not it carries an error; a missing result
contributes a zero score and no weight. -/
def aggStep (h : ResultHash) (acc : AggAcc) (d : Dimension) : AggAcc :=
  match h d with
  | some r =>
    let score := jsOrQ r.score 0
    let weight := DEFAULT_WEIGHTS d
    { finalScore := acc.finalScore + score * weight
      totalWeight := acc.totalWeight + weight
      scores := acc.scores ++ [(d, score)]
      hasErrors := acc.hasErrors || jsTruthyStr r.error
      allErrors := acc.allErrors ++
        (if jsTruthyStr r.error
         then [dimName d ++ ": " ++ (r.error.getD "")] else []) }
  | none =>
    { finalScore := acc.finalScore
      totalWeight := acc.totalWeight
      scores := acc.scores ++ [(d, 0)]
      hasErrors := true
      allErrors := acc.allErrors ++ [dimName d ++ ": Missing result"] }

/-- The finaliser's aggregation loop over all five dimensions. -/
def aggregateResults (h : ResultHash) : AggAcc :=
  DIMENSIONS.foldl (aggStep h) ⟨0, 0, [], false, []⟩

/-- `finalScore = totalWeight > 0 ? finalScore / totalWeight : 0.0`. -/
def finalScoreOf (h : ResultHash) : ℚ :=
  let a := aggregateResults h
  if 0 < a.totalWeight then a.finalScore / a.totalWeight else 0

/-- The score a present dimension contributes (0 for a missing one). -/
def storedScore (h : ResultHash) (d : Dimension) : ℚ :=
  match h d with
  | some r => jsOrQ r.score 0
  | none => 0

example : jsOrQ (some (9/10)) 0 = 9/10 := by norm_num [jsOrQ]
example : hashLen (fun _ => none) = 0 := by decide
example :
    finalScoreOf (fun _ => some ⟨some (4/5), ⟨none⟩, none⟩) = 4/5 := by
  norm_num [finalScoreOf, aggregateResults, DIMENSIONS, aggStep, jsOrQ,
    jsTruthyStr, DEFAULT_WEIGHTS]

/-- A response document as returned by dbClient.getResponseById (the
fields the finaliser and the enqueue facade read). -/
structure ResponseDoc where
  batch_id : String
  agent_id : String
deriving DecidableEq, Repr

/-- The slice of the Store the finaliser interacts with:
`getResponseById`, and whether an evaluation row already exists for a
response id (the unique index `{ response_id: 1 }` on `evaluations`
created in dbClient.createIndexes makes a second insertEvaluation
throw). -/
structure Store where
  getResponseById : String → Option ResponseDoc
  evalExists : String → Bool

/-- A main task as carried on the main queue (payload text fields are
opaque to the orchestrator and omitted). -/
structure MainTask where
  task_id : Option String
  response_id : String
  batch_id : String
  agent_id : String
  retry_count : Option ℕ
deriving DecidableEq, Repr

/-- An entry of the orchestrator's activeTasks map
(masterOrchestrator.js processMainTask, line 97). -/
structure TaskInfo where
  mainTask : MainTask
  startTime : ℕ
deriving DecidableEq, Repr

/-- The evaluation document written by insertEvaluation (time-stamp and
provenance fields are omitted). -/
structure Evaluation where
  response_id : String
  batch_id : Option String
  agent_id : Option String
  scores : List (Dimension × ℚ)
  final_score : ℚ
  processing_errors : List String
deriving DecidableEq, Repr

/-- The externally observable effects of one finalizeTaskWithInfo call:
the evaluation insert (if any), the updateResponseStatus call (if any),
and whether deletePartialResults / activeTasks.delete ran. -/
structure FinalizeOutcome where
  evalWritten : Option Evaluation
  statusSet : Option (String × Status)
  resultsDeleted : Bool
  inflightRemoved : Bool
deriving DecidableEq, Repr

/-- `for (const result of Object.values(dimensionResults)) if
(result.details?.response_id) ...`: first truthy response_id found in
the stored details objects. -/
def findDetailsResponseId (h : ResultHash) : Option String :=
  (DIMENSIONS.filterMap h).findSome? fun st =>
    match st.details.response_id with
    | some s => if s = "" then none else some s
    | none => none

/-- masterOrchestrator.js finalizeTaskWithInfo (lines 215-323).
Early return when the hash has fewer than five fields or when no
response id can be determined (in both cases nothing is written and
nothing is cleaned up); otherwise insertEvaluation runs under the
unique index: on conflict the catch block marks the record failed
(when task info carries a response id) and deletes the partial
results, on success the record is marked completed and the partial
results are deleted. -/
def finalizeTaskWithInfo (tInfo : Option TaskInfo) (h : ResultHash)
    (store : Store) : FinalizeOutcome :=
  if hashLen h < DIMENSIONS.length then
    ⟨none, none, false, false⟩
  else
    let agg := aggregateResults h
    let finalScore := if 0 < agg.totalWeight then agg.finalScore / agg.totalWeight else 0
    let responseId : Option String :=
      match tInfo with
      | some ti => some ti.mainTask.response_id
      | none => findDetailsResponseId h
    match responseId with
    | none => ⟨none, none, false, false⟩
    | some rid =>
      let batchId0 : Option String := tInfo.map (fun ti => ti.mainTask.batch_id)
      let agentId0 : Option String := tInfo.map (fun ti => ti.mainTask.agent_id)
      let lookup : Option ResponseDoc :=
        if batchId0.isNone || agentId0.isNone then store.getResponseById rid else none
      let batchId : Option String :=
        match lookup with
        | some doc => some doc.batch_id
        | none => batchId0
      let agentId : Option String :=
        match lookup with
        | some doc => some doc.agent_id
        | none => agentId0
      if store.evalExists rid then
        ⟨none,
         (match tInfo with
          | some ti => some (ti.mainTask.response_id, Status.failed)
          | none => none),
         true, true⟩
      else
        ⟨some { response_id := rid
                batch_id := batchId
                agent_id := agentId
                scores := agg.scores
                final_score := finalScore
                processing_errors := if agg.hasErrors then agg.allErrors else [] },
         some (rid, Status.completed), true, true⟩

/-- A legacy task built by enqueue.js requeueFailedResponse: the task is
rebuilt from the response document and carries no retry_count field. -/
structure LegacyTask where
  response_id : String
  batch_id : String
  agent_id : String
  retry_count : Option ℕ
  retry_reason : Option String
deriving DecidableEq, Repr

/-- A response record in the store, as read by requeueFailedResponse
(its own retry-count bookkeeping, if any, is never copied to the task). -/
structure ResponseRecord where
  idStr : String
  batch_id : String
  agent_id : String
  status : Status
  retry_count : Option ℕ
deriving DecidableEq, Repr

/-- redisClient.requeueTask: increment `retry_count || 0`, push the
updated task if the count is still within MAX_RETRIES, else return
false (modelled as none). -/
def requeueTask (t : LegacyTask) : Option LegacyTask :=
  let rc := jsOrNat t.retry_count 0 + 1
  if rc ≤ MAX_RETRIES then some { t with retry_count := some rc } else none

/-- Observable outcome of enqueue.js requeueFailedResponse. -/
structure RequeueOutcome where
  success : Bool
  reason : Option String
  pushedTask : Option LegacyTask
  statusSet : Option (String × Status)
deriving DecidableEq, Repr

/-- enqueue.js requeueFailedResponse (lines 97-133): rebuild a fresh
task from the response (without any retry_count), hand it to
requeueTask, then mark the record queued on success or failed when
requeueTask reports exhaustion. -/
def requeueFailedResponse (resp : ResponseRecord) : RequeueOutcome :=
  let task : LegacyTask :=
    { response_id := resp.idStr
      batch_id := resp.batch_id
      agent_id := resp.agent_id
      retry_count := none
      retry_reason := some "retry" }
  match requeueTask task with
  | some t2 => ⟨true, none, some t2, some (resp.idStr, Status.queued)⟩
  | none => ⟨false, some "max_retries_exceeded", none, some (resp.idStr, Status.failed)⟩

/-- redisClient.addMainTask: push `{ ...taskData, task_id: task_id ||
uuidv4(), retry_count: 0 }` — the retry_count of the pushed task is
always reset to 0 after the spread. `fresh` stands for the uuid. -/
def addMainTask (fresh : String) (t : MainTask) : MainTask :=
  { t with task_id := some (jsOrStr t.task_id fresh), retry_count := some 0 }

/-- redisClient.requeueMainTask: increment `retry_count || 0`; within
MAX_RETRIES the updated task goes back through addMainTask, else return
false (none). -/
def requeueMainTask (fresh : String) (t : MainTask) : Option MainTask :=
  let rc := jsOrNat t.retry_count 0 + 1
  if rc ≤ MAX_RETRIES then some (addMainTask fresh { t with retry_count := some rc })
  else none

/-- masterOrchestrator.js handleTaskFailure: requeue via
requeueMainTask; only when that returns false is the record marked
failed. -/
def handleTaskFailure (fresh : String) (t : MainTask) :
    Option (String × Status) :=
  match requeueMainTask fresh t with
  | some _ => none
  | none => some (t.response_id, Status.failed)

/-- n successive dispatch failures, each going through
handleTaskFailure's requeueMainTask. -/
def iterRequeue (fresh : String) : ℕ → MainTask → Option MainTask
  | 0, t => some t
  | n + 1, t =>
    match requeueMainTask fresh t with
    | some t2 => iterRequeue fresh n t2
    | none => none

/-- The progress object built by dbClient.getBatchProgress: the four
statically initialised counters plus any dynamically assigned status
keys, and the running total. -/
structure BatchProgress where
  count : Status → ℕ
  total : ℕ

/-- One step of `results.forEach(result => { progress[result._id] =
result.count; progress.total += result.count; })`. -/
def progressStep (p : BatchProgress) (g : Status × ℕ) : BatchProgress :=
  { count := fun x => if x = g.1 then g.2 else p.count x
    total := p.total + g.2 }

/-- dbClient.getBatchProgress (lines 236-264): the aggregation pipeline
groups the batch's responses by status (one group per distinct status,
with its count); every group is then written into the progress object
and added to `total`. -/
def getBatchProgress (statuses : List Status) : BatchProgress :=
  let groups := statuses.dedup.map fun s => (s, statuses.count s)
  groups.foldl progressStep ⟨fun _ => 0, 0⟩

/-- Phases of one main task inside the dispatch loop
(masterOrchestrator.js processMainQueue / processMainTask):
after the pop the task is counted in runningTasks; the record is then
marked processing; once all five dimension pushes are done runningTasks
is decremented (the `finally` block) while the record stays processing;
the record leaves processing only at finalisation (or failure/timeout). -/
inductive DPhase
  | idle
  | dispatched
  | fanning
  | awaitingResults
  | done
deriving DecidableEq, Repr

/-- The dispatch-loop state projected onto what the concurrency claims
observe: the runningTasks counter, each record's status, and each
record's phase. -/
structure DState where
  running : ℕ
  status : String → Status
  phase : String → DPhase

/-- Atomic events of the dispatch/finalisation interleaving, one per
await boundary of the source. -/
inductive DOp
  | pop (rid : String)
  | markProc (rid : String)
  | fanoutDone (rid : String)
  | finalizeOk (rid : String)
deriving DecidableEq, Repr

/-- Guard of each event. `pop` reflects the loop's
`if (this.runningTasks >= this.maxConcurrentTasks) continue` check:
a task is popped (and runningTasks incremented synchronously at the top
of processMainTask) only while runningTasks is below the cap. -/
def dGuard (maxC : ℕ) (s : DState) : DOp → Bool
  | .pop rid => decide (s.running < maxC) && decide (s.phase rid = .idle)
  | .markProc rid => decide (s.phase rid = .dispatched)
  | .fanoutDone rid => decide (s.phase rid = .fanning)
  | .finalizeOk rid => decide (s.phase rid = .awaitingResults)

/-- Effect of each event on the projected state. -/
def dStep (s : DState) : DOp → DState
  | .pop rid =>
    { s with running := s.running + 1
             phase := fun x => if x = rid then .dispatched else s.phase x }
  | .markProc rid =>
    { s with status := fun x => if x = rid then .processing else s.status x
             phase := fun x => if x = rid then .fanning else s.phase x }
  | .fanoutDone rid =>
    { s with running := s.running - 1
             phase := fun x => if x = rid then .awaitingResults else s.phase x }
  | .finalizeOk rid =>
    { s with status := fun x => if x = rid then .completed else s.status x
             phase := fun x => if x = rid then .done else s.phase x }

/-- Run a sequence of events. -/
def dRun (s : DState) (ops : List DOp) : DState :=
  ops.foldl dStep s

/-- A sequence of events is a valid execution from `s` when every
event's guard holds in the state it fires from. -/
def dOk (maxC : ℕ) : DState → List DOp → Bool
  | _, [] => true
  | s, op :: rest => dGuard maxC s op && dOk maxC (dStep s op) rest

/-- Initial dispatch state: no task counted, all records queued. -/
def dInit : DState :=
  ⟨0, fun _ => Status.queued, fun _ => DPhase.idle⟩

/-- masterOrchestrator.js task timeout (this.taskTimeout, ms). -/
def taskTimeoutMs : ℕ := 300000

/-- masterOrchestrator.js sweep cadence (setInterval period, ms). -/
def sweepIntervalMs : ℕ := 60000

/-- An activeTasks entry as seen by the timeout sweeper. -/
structure InflightEntry where
  taskId : String
  responseId : String
  startTime : ℕ
deriving DecidableEq, Repr

/-- State the sweeper acts on: the in-flight table, record statuses,
the partial-result hashes keyed by task id, and the queues (listed to
show the sweeper never requeues anything). -/
structure SweepState where
  active : List InflightEntry
  status : String → Status
  resultHash : String → Option ResultHash
  mainQueue : List MainTask
  dimQueues : Dimension → List MainTask

/-- `now - taskInfo.startTime > this.taskTimeout`. -/
def timedOutAt (now : ℕ) (e : InflightEntry) : Bool :=
  decide (taskTimeoutMs < now - e.startTime)

/-- Handling of one timed-out entry: mark the record failed, delete the
activeTasks entry, delete the partial-result hash; the queues are
untouched. -/
def sweepOne (st : SweepState) (e : InflightEntry) : SweepState :=
  { st with
    status := fun r => if r = e.responseId then Status.failed else st.status r
    active := st.active.filter fun e2 => !(e2.taskId == e.taskId)
    resultHash := fun t => if t = e.taskId then none else st.resultHash t }

/-- masterOrchestrator.js checkTaskTimeouts (lines 373-400): collect the
entries whose age exceeds the timeout, then handle each. -/
def checkTaskTimeouts (now : ℕ) (s : SweepState) : SweepState :=
  (s.active.filter (timedOutAt now)).foldl sweepOne s

/-- The first tick of the sweeper's 60 s interval (anchored at t0)
that lies strictly after a deadline d. -/
def sweepTimeAfter (t0 d : ℕ) : ℕ :=
  t0 + ((d - t0) / sweepIntervalMs + 1) * sweepIntervalMs

/-! ### Helper lemmas -/

lemma progress_total_fold (gs : List (Status × ℕ)) (p0 : BatchProgress) :
    (gs.foldl progressStep p0).total = p0.total + (gs.map Prod.snd).sum := by
  induction gs generalizing p0 with
  | nil => simp
  | cons g gs ih => simp [List.foldl_cons, ih, progressStep]; omega

lemma progress_count_notmem (gs : List (Status × ℕ)) (p0 : BatchProgress)
    (s : Status) (h : s ∉ gs.map Prod.fst) :
    (gs.foldl progressStep p0).count s = p0.count s := by
  induction gs generalizing p0 with
  | nil => rfl
  | cons g gs ih =>
    simp only [List.map_cons, List.mem_cons, not_or] at h
    rw [List.foldl_cons, ih _ h.2]
    simp [progressStep, h.1]

lemma progress_count_mem (gs : List (Status × ℕ)) (p0 : BatchProgress)
    (s : Status) (c : ℕ) :
    (gs.map Prod.fst).Nodup → (s, c) ∈ gs →
      (gs.foldl progressStep p0).count s = c := by
  induction gs generalizing p0 with
  | nil => intro _ h; cases h
  | cons g gs ih =>
    intro hnd h
    rw [List.map_cons, List.nodup_cons] at hnd
    rcases List.mem_cons.mp h with heq | hmem
    · rw [List.foldl_cons, progress_count_notmem]
      · simp [progressStep, ← heq]
      · rw [← heq] at hnd; exact hnd.1
    · exact ih _ hnd.2 hmem

lemma sum_dedup_count_eq_length {α : Type} [DecidableEq α] (l : List α) :
    (l.dedup.map fun a => l.count a).sum = l.length := by
  have h1 := List.sum_toFinset (fun a => l.count a) l.nodup_dedup
  have h2 : l.dedup.toFinset = l.toFinset := by
    ext a; simp [List.mem_toFinset, List.mem_dedup]
  rw [← h1, h2, List.sum_toFinset_count_eq_length]

lemma getBatchProgress_total (l : List Status) :
    (getBatchProgress l).total = l.length := by
  unfold getBatchProgress
  rw [progress_total_fold]
  simpa [List.map_map, Function.comp] using sum_dedup_count_eq_length l

lemma getBatchProgress_count (l : List Status) (s : Status) :
    (getBatchProgress l).count s = l.count s := by
  unfold getBatchProgress
  have hkeys : (l.dedup.map fun a => (a, l.count a)).map Prod.fst = l.dedup := by
    simp [List.map_map, Function.comp_def]
  by_cases hs : s ∈ l.dedup
  · apply progress_count_mem
    · rw [hkeys]; exact l.nodup_dedup
    · exact List.mem_map.mpr ⟨s, hs, rfl⟩
  · rw [progress_count_notmem]
    · symm
      rw [List.count_eq_zero]
      exact fun hmem => hs (List.mem_dedup.mpr hmem)
    · rw [hkeys]; exact hs

lemma status_list_length_partition (l : List Status) :
    l.length = l.count .pending + l.count .queued + l.count .processing +
      l.count .completed + l.count .failed + l.count .cancelled := by
  induction l with
  | nil => simp
  | cons a t ih => cases a <;> simp [List.count_cons, ih] <;> omega

lemma requeueMainTask_zero (fresh : String) (t : MainTask)
    (h : t.retry_count = some 0) :
    requeueMainTask fresh t =
      some (addMainTask fresh { t with retry_count := some 1 }) := by
  simp [requeueMainTask, jsOrNat, h, MAX_RETRIES]

lemma iterRequeue_zero (fresh : String) :
    ∀ (n : ℕ) (t : MainTask), t.retry_count = some 0 →
      ∃ t2, iterRequeue fresh n t = some t2 ∧ t2.retry_count = some 0 := by
  intro n
  induction n with
  | zero => exact fun t h => ⟨t, rfl, h⟩
  | succ n ih =>
    intro t h
    rw [iterRequeue, requeueMainTask_zero fresh t h]
    exact ih _ (by simp [addMainTask])

/-! ### Claim C4 -/

/-- A failed response record whose own retry count (5) already exceeds
MAX_RETRIES (3). -/
def c4Resp : ResponseRecord := ⟨"r1", "b1", "a1", Status.failed, some 5⟩

/-- C4 (counterexample): for a record whose retry-count (5) exceeds
MaxRetries (3), requeueFailedResponse does NOT return retry_exhausted,
DOES push a new task, and sets the record's status to queued rather
than leaving it failed — contradicting the claim on all three points. -/
theorem c4_counterexample :
    (requeueFailedResponse c4Resp).success = true ∧
    (requeueFailedResponse c4Resp).reason = none ∧
    (requeueFailedResponse c4Resp).pushedTask.isSome = true ∧
    (requeueFailedResponse c4Resp).statusSet = some ("r1", Status.queued) := by
  decide

/-- C4 (amended): requeueFailedResponse rebuilds the task from the
response without any retry_count field, so requeueTask always computes
retry_count = 0 + 1 = 1 ≤ MAX_RETRIES and requeues: for every record,
regardless of its retry count, the call succeeds, pushes exactly one
task carrying retry_count 1, and marks the record queued; the
exhaustion branch (which would report "max_retries_exceeded", not
"retry_exhausted") is unreachable from requeueFailedResponse. -/
theorem c4_requeue_ignores_retry_count (resp : ResponseRecord) :
    (requeueFailedResponse resp).success = true ∧
    (requeueFailedResponse resp).reason = none ∧
    (requeueFailedResponse resp).statusSet = some (resp.idStr, Status.queued) ∧
    (requeueFailedResponse resp).pushedTask.map (fun t => t.retry_count) =
      some (some 1) := by
  simp [requeueFailedResponse, requeueTask, jsOrNat, MAX_RETRIES]

/-! ### Claim C6 -/

/-- C6 (counterexample): a batch with a single record in status queued
(exactly the state enqueueBatch puts records in) has total = 1 while
pending + processing + completed + failed + cancelled = 0, so the
claimed identity fails at an observation point with queued records. -/
theorem c6_counterexample :
    (getBatchProgress [Status.queued]).total = 1 ∧
    (getBatchProgress [Status.queued]).count Status.pending +
      (getBatchProgress [Status.queued]).count Status.processing +
      (getBatchProgress [Status.queued]).count Status.completed +
      (getBatchProgress [Status.queued]).count Status.failed +
      (getBatchProgress [Status.queued]).count Status.cancelled = 0 := by
  decide

/-- C6 (amended): getBatchProgress adds every status group of the batch
into total, so the identity that holds at every observation point is
total = pending + queued + processing + completed + failed + cancelled;
the five-status identity of the claim holds only when no record of the
batch is in status queued. -/
theorem c6_total_over_all_statuses (l : List Status) :
    (getBatchProgress l).total =
      (getBatchProgress l).count Status.pending +
      (getBatchProgress l).count Status.queued +
      (getBatchProgress l).count Status.processing +
      (getBatchProgress l).count Status.completed +
      (getBatchProgress l).count Status.failed +
      (getBatchProgress l).count Status.cancelled := by
  simp only [getBatchProgress_count, getBatchProgress_total]
  exact status_list_length_partition l

/-! ### Claim C9 -/

/-- A dimension result carrying the out-of-range score 1.5 and no
error. -/
def c9Result : IncomingResult :=
  ⟨"t1", .instruction, "r1", "b1", "a1", some (3/2), none, none⟩

/-- A partial-result hash in which every dimension stored such an
out-of-range result. -/
def c9Hash : ResultHash := fun _ => some (mkStored c9Result)

/-- C9 (counterexample): a result with score 1.5 is stored unchanged
(not clamped to 0), no error is recorded for it, and the out-of-range
score enters the aggregation: a task whose five results all carry 1.5
finalises with final-score 1.5, outside [0,1]. -/
theorem c9_counterexample :
    (mkStored c9Result).score = some (3/2) ∧
    (mkStored c9Result).error = none ∧
    finalScoreOf c9Hash = 3/2 ∧ ¬ finalScoreOf c9Hash ≤ 1 := by
  refine ⟨by norm_num [mkStored, c9Result, jsOrQ, jsOrDetails, jsOrNull, jsTruthyStr],
    rfl, ?_, ?_⟩ <;>
  norm_num [finalScoreOf, aggregateResults, DIMENSIONS, aggStep, c9Hash,
    mkStored, c9Result, jsOrQ, jsOrDetails, jsOrNull, jsTruthyStr, DEFAULT_WEIGHTS]

/-- C9 (amended): the collector performs no score validation at all.
A result whose score is a non-zero number is stored with that exact
score and with its error field passed through unchanged (no error is
recorded for an out-of-range value), and such a score enters the
aggregation as-is: if all five dimensions carry score s, the final
score is s, even when s lies outside [0,1]. Only falsy scores
(0, NaN, null — the `score || 0.0` coercion) are replaced by 0, also
without recording an error. -/
theorem c9_no_score_validation (r : IncomingResult) (s : ℚ)
    (hs : r.score = some s) (hnz : s ≠ 0) :
    (mkStored r).score = some s ∧
    (mkStored r).error = jsOrNull r.error ∧
    finalScoreOf (fun _ => some (mkStored r)) = s := by
  have hsc : (mkStored r).score = some s := by simp [mkStored, jsOrQ, hs, hnz]
  refine ⟨hsc, rfl, ?_⟩
  have : mkStored r = ⟨some s, jsOrDetails r.details, jsOrNull r.error⟩ := by
    simp [mkStored, jsOrQ, hs, hnz]
  rw [this]
  norm_num [finalScoreOf, aggregateResults, DIMENSIONS, aggStep, jsOrQ,
    DEFAULT_WEIGHTS, hnz]
  ring

/-- C9 (witness): the amended theorem applied to the concrete 1.5
result. -/
theorem c9_witness :
    (c9Result.score = some (3/2) ∧ (3/2 : ℚ) ≠ 0) ∧
    (mkStored c9Result).score = some (3/2) := by
  exact ⟨⟨rfl, by norm_num⟩,
    (c9_no_score_validation c9Result (3/2) rfl (by norm_num)).1⟩

/-! ### Claim C10 -/

/-- C10 (confirmed): every task pushed through addMainTask carries
retry_count 0 (the `retry_count: 0` literal follows the spread and
overrides any incoming value, including the incremented value
requeueMainTask passes back in); consequently a task that entered the
main queue through addMainTask can be requeued any number n of times by
handleTaskFailure, each iteration succeeding with the counter reset to
0, and the retry-ceiling branch that would mark the record failed is
never taken. -/
theorem c10_retry_count_reset (fresh : String) (t : MainTask) (n : ℕ) :
    (addMainTask fresh t).retry_count = some 0 ∧
    (iterRequeue fresh n (addMainTask fresh t)).map (fun u => u.retry_count) =
      some (some 0) ∧
    (iterRequeue fresh n (addMainTask fresh t)).map (handleTaskFailure fresh) =
      some none := by
  obtain ⟨t2, h2, h3⟩ :=
    iterRequeue_zero fresh n (addMainTask fresh t) (by simp [addMainTask])
  refine ⟨by simp [addMainTask], ?_, ?_⟩
  · rw [h2]
    simp [h3]
  · rw [h2]
    simp [handleTaskFailure, requeueMainTask_zero fresh t2 h3]

/-! ### Claim C1 -/

/-- The spec's worked example (scenario 2): instruction 0.9,
hallucination errored with stored score 0, assumption 1.0,
coherence 0.6, accuracy 0.8. -/
def c1Hash : ResultHash := fun d =>
  match d with
  | .instruction => some ⟨some (9/10), ⟨none⟩, none⟩
  | .hallucination => some ⟨some 0, ⟨none⟩, some "nli timeout"⟩
  | .assumption => some ⟨some 1, ⟨none⟩, none⟩
  | .coherence => some ⟨some (3/5), ⟨none⟩, none⟩
  | .accuracy => some ⟨some (4/5), ⟨none⟩, none⟩

/-- C1 (counterexample): on the spec's own example the finaliser
produces 0.63, not the claimed 0.84: the errored hallucination
dimension is present in the hash, so its weight 0.25 stays in the
denominator (and its stored score 0 in the numerator). -/
theorem c1_counterexample :
    finalScoreOf c1Hash = 63/100 ∧ finalScoreOf c1Hash ≠ 84/100 := by
  norm_num [finalScoreOf, aggregateResults, DIMENSIONS, aggStep, c1Hash,
    jsOrQ, jsTruthyStr, DEFAULT_WEIGHTS]

/-- C1 (amended): the denominator excludes only dimensions missing from
the partial-result hash. For a finalised task all five dimensions are
present (the completeness guard requires it), so every dimension —
errored or not — contributes score·weight to the numerator and its full
weight to the denominator, which is then Σ W[d] = 1: final-score
= Σ_d W[d]·score[d] over all five dimensions, and the spec's example
evaluates to 0.63, not 0.84. -/
theorem c1_errored_weights_in_denominator (h : ResultHash)
    (h1 : (h Dimension.instruction).isSome = true)
    (h2 : (h Dimension.hallucination).isSome = true)
    (h3 : (h Dimension.assumption).isSome = true)
    (h4 : (h Dimension.coherence).isSome = true)
    (h5 : (h Dimension.accuracy).isSome = true) :
    finalScoreOf h =
      DEFAULT_WEIGHTS .instruction * storedScore h .instruction +
      DEFAULT_WEIGHTS .hallucination * storedScore h .hallucination +
      DEFAULT_WEIGHTS .assumption * storedScore h .assumption +
      DEFAULT_WEIGHTS .coherence * storedScore h .coherence +
      DEFAULT_WEIGHTS .accuracy * storedScore h .accuracy := by
  obtain ⟨r1, e1⟩ := Option.isSome_iff_exists.mp h1
  obtain ⟨r2, e2⟩ := Option.isSome_iff_exists.mp h2
  obtain ⟨r3, e3⟩ := Option.isSome_iff_exists.mp h3
  obtain ⟨r4, e4⟩ := Option.isSome_iff_exists.mp h4
  obtain ⟨r5, e5⟩ := Option.isSome_iff_exists.mp h5
  norm_num [finalScoreOf, aggregateResults, DIMENSIONS, aggStep, storedScore,
    e1, e2, e3, e4, e5, DEFAULT_WEIGHTS]
  ring

/-- C1 (witness): the amended aggregation equality at the spec's
example hash. -/
theorem c1_witness :
    ((c1Hash Dimension.instruction).isSome = true ∧
     (c1Hash Dimension.hallucination).isSome = true ∧
     (c1Hash Dimension.assumption).isSome = true ∧
     (c1Hash Dimension.coherence).isSome = true ∧
     (c1Hash Dimension.accuracy).isSome = true) ∧
    finalScoreOf c1Hash =
      DEFAULT_WEIGHTS .instruction * storedScore c1Hash .instruction +
      DEFAULT_WEIGHTS .hallucination * storedScore c1Hash .hallucination +
      DEFAULT_WEIGHTS .assumption * storedScore c1Hash .assumption +
      DEFAULT_WEIGHTS .coherence * storedScore c1Hash .coherence +
      DEFAULT_WEIGHTS .accuracy * storedScore c1Hash .accuracy :=
  ⟨⟨rfl, rfl, rfl, rfl, rfl⟩,
   c1_errored_weights_in_denominator c1Hash rfl rfl rfl rfl rfl⟩

/-! ### Claim C2 -/

/-- A stored dimension result that carries a truthy error and
contributes score 0 (the shape the worker error path produces). -/
def erroredZero : Option StoredResult → Bool
  | some r => decide (jsOrQ r.score 0 = 0) && jsTruthyStr r.error
  | none => false

/-- All five dimensions errored with score 0. -/
def c2Hash : ResultHash := fun _ => some ⟨some 0, ⟨none⟩, some "worker error"⟩

/-- Task info for the all-errored task. -/
def c2TaskInfo : TaskInfo := ⟨⟨some "t1", "r1", "b1", "a1", some 0⟩, 0⟩

/-- A store with no pre-existing evaluation. -/
def c2Store : Store := ⟨fun _ => none, fun _ => false⟩

/-- C2 (counterexample): when all five dimensions error, the finaliser
still inserts the evaluation and sets the record's status to completed
— not to failed as the claim states. -/
theorem c2_counterexample :
    (finalizeTaskWithInfo (some c2TaskInfo) c2Hash c2Store).statusSet =
      some ("r1", Status.completed) ∧
    Status.completed ≠ Status.failed := by
  refine ⟨?_, by decide⟩
  norm_num [finalizeTaskWithInfo, hashLen, DIMENSIONS, c2Hash, c2TaskInfo,
    c2Store]

/-- C2 (amended): when every dimension result carries a non-null error
(each stored with score 0, as the worker error path produces),
finalisation writes an evaluation with final-score 0 and a
processing-errors list of five entries — as the claim says — but the
record's status is set to completed, not failed: the success of
insertEvaluation drives the status, and hash completeness alone
triggers it. -/
theorem c2_all_errored_completes (ti : TaskInfo) (h : ResultHash)
    (store : Store)
    (h1 : erroredZero (h Dimension.instruction) = true)
    (h2 : erroredZero (h Dimension.hallucination) = true)
    (h3 : erroredZero (h Dimension.assumption) = true)
    (h4 : erroredZero (h Dimension.coherence) = true)
    (h5 : erroredZero (h Dimension.accuracy) = true)
    (hnew : store.evalExists ti.mainTask.response_id = false) :
    (finalizeTaskWithInfo (some ti) h store).evalWritten.map
        (fun ev => (ev.final_score, ev.processing_errors.length)) =
      some (0, 5) ∧
    (finalizeTaskWithInfo (some ti) h store).statusSet =
      some (ti.mainTask.response_id, Status.completed) := by
  have get1 : ∀ x, erroredZero x = true →
      ∃ r, x = some r ∧ jsOrQ r.score 0 = 0 ∧ jsTruthyStr r.error = true := by
    intro x hx
    cases x with
    | none => simp [erroredZero] at hx
    | some r =>
      simp only [erroredZero, Bool.and_eq_true, decide_eq_true_eq] at hx
      exact ⟨r, rfl, hx.1, hx.2⟩
  obtain ⟨r1, e1, s1, t1⟩ := get1 _ h1
  obtain ⟨r2, e2, s2, t2⟩ := get1 _ h2
  obtain ⟨r3, e3, s3, t3⟩ := get1 _ h3
  obtain ⟨r4, e4, s4, t4⟩ := get1 _ h4
  obtain ⟨r5, e5, s5, t5⟩ := get1 _ h5
  norm_num [finalizeTaskWithInfo, hashLen, DIMENSIONS, aggregateResults,
    aggStep, e1, e2, e3, e4, e5, s1, s2, s3, s4, s5, t1, t2, t3, t4, t5,
    hnew, DEFAULT_WEIGHTS]

/-- C2 (witness): the amended theorem at the concrete all-errored task. -/
theorem c2_witness :
    (erroredZero (c2Hash Dimension.instruction) = true ∧
     c2Store.evalExists "r1" = false) ∧
    (finalizeTaskWithInfo (some c2TaskInfo) c2Hash c2Store).evalWritten.map
        (fun ev => (ev.final_score, ev.processing_errors.length)) =
      some (0, 5) :=
  ⟨⟨by decide, rfl⟩,
   (c2_all_errored_completes c2TaskInfo c2Hash c2Store
      (by decide) (by decide) (by decide) (by decide) (by decide) rfl).1⟩

/-! ### Claim C3 -/

/-- A complete, error-free hash for the duplicate-finalisation case. -/
def c3Hash : ResultHash := fun _ => some ⟨some (7/10), ⟨none⟩, none⟩

/-- Task info for the duplicated task. -/
def c3TaskInfo : TaskInfo := ⟨⟨some "t9", "r9", "b9", "a9", some 0⟩, 0⟩

/-- A store in which an evaluation already exists for every response id
(so insertEvaluation hits the unique index and throws). -/
def c3Store : Store := ⟨fun _ => none, fun _ => true⟩

/-- C3 (counterexample): a second finalisation for a task whose
evaluation already exists does not leave the record's status unchanged:
the catch block around insertEvaluation marks the record failed. -/
theorem c3_counterexample :
    (finalizeTaskWithInfo (some c3TaskInfo) c3Hash c3Store).statusSet =
      some ("r9", Status.failed) ∧
    (finalizeTaskWithInfo (some c3TaskInfo) c3Hash c3Store).evalWritten =
      none := by
  constructor <;>
  norm_num [finalizeTaskWithInfo, hashLen, DIMENSIONS, c3Hash, c3TaskInfo,
    c3Store]

/-- C3 (amended): on a write-evaluation conflict no evaluation is
written and the partial results are deleted, but the conflict is not
treated as a benign no-op: the generic catch block marks the record
failed whenever the task is present in the in-flight table (the status
is left untouched only in the unknown-task path where no task info is
available). -/
theorem c3_conflict_marks_failed (ti : TaskInfo) (h : ResultHash)
    (store : Store)
    (hfull : hashLen h = DIMENSIONS.length)
    (hdup : store.evalExists ti.mainTask.response_id = true) :
    finalizeTaskWithInfo (some ti) h store =
      ⟨none, some (ti.mainTask.response_id, Status.failed), true, true⟩ := by
  simp [finalizeTaskWithInfo, hfull, hdup]

/-- C3 (witness): the amended conflict behaviour at the concrete
duplicated task. -/
theorem c3_witness :
    (hashLen c3Hash = DIMENSIONS.length ∧
     c3Store.evalExists "r9" = true) ∧
    finalizeTaskWithInfo (some c3TaskInfo) c3Hash c3Store =
      ⟨none, some ("r9", Status.failed), true, true⟩ :=
  ⟨⟨by decide, rfl⟩,
   c3_conflict_marks_failed c3TaskInfo c3Hash c3Store (by decide) rfl⟩

/-! ### Claim C7 -/

/-- A complete hash none of whose stored details objects carries a
response id (exactly what the worker error path produces: details {}). -/
def c7HashNoRid : ResultHash := fun _ => some ⟨some (4/5), ⟨none⟩, none⟩

/-- A complete hash in which the instruction result's details object
carries response_id "r7". -/
def c7HashRid : ResultHash := fun d =>
  match d with
  | .instruction => some ⟨some (4/5), ⟨some "r7"⟩, none⟩
  | _ => some ⟨some (4/5), ⟨none⟩, none⟩

/-- A store that knows response "r7" and has no evaluation yet. -/
def c7Store : Store :=
  ⟨fun rid => if rid = "r7" then some ⟨"b7", "a7"⟩ else none, fun _ => false⟩

/-- C7 (counterexample): with the task absent from the in-flight table
and a complete partial-result hash whose stored results carry no
response id in their details — the envelope's top-level response_id is
not stored in the hash — the finaliser cannot determine the record and
returns without writing an Evaluation, contradicting the claim that the
stored partial results always contain enough to finalise. -/
theorem c7_counterexample :
    hashLen c7HashNoRid = DIMENSIONS.length ∧
    (finalizeTaskWithInfo none c7HashNoRid c7Store).evalWritten = none ∧
    (finalizeTaskWithInfo none c7HashNoRid c7Store).statusSet = none := by
  exact ⟨by decide, by decide, by decide⟩

/-- C7 (amended): setPartialResult stores only score, details, error
and completed-at, dropping the envelope's response_id, so after the
in-flight entry is gone the collector can recover the record only when
some stored result's details object itself carries response_id; in that
case the Store lookup on it supplies batch and agent ids and an
Evaluation is written with status completed; when no details carries a
response id the task is dropped without an Evaluation. -/
theorem c7_details_response_id_required (h : ResultHash) (store : Store)
    (rid : String) (doc : ResponseDoc)
    (hfull : hashLen h = DIMENSIONS.length)
    (hfound : findDetailsResponseId h = some rid)
    (hdoc : store.getResponseById rid = some doc)
    (hnew : store.evalExists rid = false) :
    (finalizeTaskWithInfo none h store).evalWritten.map
        (fun ev => (ev.response_id, ev.batch_id, ev.agent_id)) =
      some (rid, some doc.batch_id, some doc.agent_id) ∧
    (finalizeTaskWithInfo none h store).statusSet =
      some (rid, Status.completed) := by
  simp [finalizeTaskWithInfo, hfull, hfound, hdoc, hnew]

/-- C7 (witness): the amended behaviour at the concrete hash whose
instruction details carries "r7". -/
theorem c7_witness :
    (hashLen c7HashRid = DIMENSIONS.length ∧
     findDetailsResponseId c7HashRid = some "r7" ∧
     c7Store.getResponseById "r7" = some ⟨"b7", "a7"⟩ ∧
     c7Store.evalExists "r7" = false) ∧
    (finalizeTaskWithInfo none c7HashRid c7Store).statusSet =
      some ("r7", Status.completed) :=
  ⟨⟨by decide, by decide, by decide, rfl⟩,
   (c7_details_response_id_required c7HashRid c7Store "r7" ⟨"b7", "a7"⟩
      (by decide) (by decide) (by decide) rfl).2⟩

/-! ### Claim C5 -/

lemma dRun_running_le (maxC : ℕ) :
    ∀ (l : List DOp) (s : DState), s.running ≤ maxC →
      dOk maxC s l = true → (dRun s l).running ≤ maxC := by
  intro l
  induction l with
  | nil => intro s hle _; exact hle
  | cons op rest ih =>
    intro s hle hok
    rw [dOk, Bool.and_eq_true] at hok
    refine ih (dStep s op) ?_ hok.2
    cases op with
    | pop rid =>
      have hlt : s.running < maxC := by
        have := hok.1
        simp only [dGuard, Bool.and_eq_true, decide_eq_true_eq] at this
        exact this.1
      simpa [dStep] using hlt
    | markProc rid => simpa [dStep] using hle
    | fanoutDone rid =>
      simp only [dStep]
      exact le_trans (Nat.sub_le _ _) hle
    | finalizeOk rid => simpa [dStep] using hle

/-- A valid execution with cap 1: task a is popped, marked processing
and fanned out (runningTasks back to 0), then task b is popped and
marked processing while a is still processing. -/
def c5Ops : List DOp :=
  [.pop "a", .markProc "a", .fanoutDone "a", .pop "b", .markProc "b"]

/-- C5 (counterexample): with MaxConcurrentTasks = 1 there is a valid
execution of the dispatch loop — every pop honouring the
runningTasks-below-cap guard — that ends with two distinct records
simultaneously in status processing: runningTasks is decremented in
processMainTask's finally block when the fan-out completes, long before
the record leaves processing at finalisation. -/
theorem c5_counterexample :
    dOk 1 dInit c5Ops = true ∧
    (dRun dInit c5Ops).status "a" = Status.processing ∧
    (dRun dInit c5Ops).status "b" = Status.processing ∧
    "a" ≠ "b" := by
  decide

/-- C5 (amended): the MaxConcurrentTasks cap bounds the number of
tasks between their pop and the completion of their dimension fan-out
(the runningTasks counter), not the number of un-finalised tasks: at
the end of every valid execution — and so, since every prefix of a
valid execution is valid, at every point of one — runningTasks is at
most the cap; but a task leaves the counter at fanoutDone while its
record stays processing until finalisation, so records in processing
are not bounded by the cap (see the counterexample for cap 1). -/
theorem c5_running_cap (maxC : ℕ) (ops : List DOp)
    (hok : dOk maxC dInit ops = true) :
    (dRun dInit ops).running ≤ maxC :=
  dRun_running_le maxC ops dInit (by simp [dInit]) hok

/-- C5 (witness): the cap bound after a concrete valid execution. -/
theorem c5_witness :
    dOk 2 dInit [DOp.pop "x", DOp.markProc "x"] = true ∧
    (dRun dInit [DOp.pop "x", DOp.markProc "x"]).running ≤ 2 :=
  ⟨by decide, c5_running_cap 2 [DOp.pop "x", DOp.markProc "x"] (by decide)⟩

/-! ### Claim C8 -/

lemma sweepFold_mainQueue :
    ∀ (gs : List InflightEntry) (st : SweepState),
      (gs.foldl sweepOne st).mainQueue = st.mainQueue := by
  intro gs
  induction gs with
  | nil => intro st; rfl
  | cons g gs ih => intro st; rw [List.foldl_cons, ih]; rfl

lemma sweepFold_dimQueues :
    ∀ (gs : List InflightEntry) (st : SweepState),
      (gs.foldl sweepOne st).dimQueues = st.dimQueues := by
  intro gs
  induction gs with
  | nil => intro st; rfl
  | cons g gs ih => intro st; rw [List.foldl_cons, ih]; rfl

lemma sweepFold_status_pres :
    ∀ (gs : List InflightEntry) (st : SweepState) (r : String),
      st.status r = Status.failed →
      (gs.foldl sweepOne st).status r = Status.failed := by
  intro gs
  induction gs with
  | nil => intro st r hr; exact hr
  | cons g gs ih =>
    intro st r hr
    rw [List.foldl_cons]
    refine ih _ r ?_
    by_cases hcase : r = g.responseId <;> simp [sweepOne, hcase, hr]

lemma sweepFold_status_mem :
    ∀ (gs : List InflightEntry) (st : SweepState) (e : InflightEntry),
      e ∈ gs → (gs.foldl sweepOne st).status e.responseId = Status.failed := by
  intro gs
  induction gs with
  | nil => intro st e h; cases h
  | cons g gs ih =>
    intro st e h
    rcases List.mem_cons.mp h with heq | hmem
    · rw [List.foldl_cons]
      refine sweepFold_status_pres gs _ _ ?_
      simp [sweepOne, heq]
    · rw [List.foldl_cons]
      exact ih _ e hmem

lemma sweepFold_hash_pres :
    ∀ (gs : List InflightEntry) (st : SweepState) (t : String),
      st.resultHash t = none →
      (gs.foldl sweepOne st).resultHash t = none := by
  intro gs
  induction gs with
  | nil => intro st t ht; exact ht
  | cons g gs ih =>
    intro st t ht
    rw [List.foldl_cons]
    refine ih _ t ?_
    by_cases hcase : t = g.taskId <;> simp [sweepOne, hcase, ht]

lemma sweepFold_hash_mem :
    ∀ (gs : List InflightEntry) (st : SweepState) (e : InflightEntry),
      e ∈ gs → (gs.foldl sweepOne st).resultHash e.taskId = none := by
  intro gs
  induction gs with
  | nil => intro st e h; cases h
  | cons g gs ih =>
    intro st e h
    rcases List.mem_cons.mp h with heq | hmem
    · rw [List.foldl_cons]
      refine sweepFold_hash_pres gs _ _ ?_
      simp [sweepOne, heq]
    · rw [List.foldl_cons]
      exact ih _ e hmem

lemma sweepFold_active_pres (p : InflightEntry → Prop) :
    ∀ (gs : List InflightEntry) (st : SweepState),
      (∀ e2 ∈ st.active, p e2) →
      ∀ e2 ∈ (gs.foldl sweepOne st).active, p e2 := by
  intro gs
  induction gs with
  | nil => intro st hp; exact hp
  | cons g gs ih =>
    intro st hp
    rw [List.foldl_cons]
    refine ih _ ?_
    intro e2 h2
    exact hp e2 (List.mem_of_mem_filter h2)

lemma sweepFold_active_mem :
    ∀ (gs : List InflightEntry) (st : SweepState) (e : InflightEntry),
      e ∈ gs →
      ∀ e2 ∈ (gs.foldl sweepOne st).active, e2.taskId ≠ e.taskId := by
  intro gs
  induction gs with
  | nil => intro st e h; cases h
  | cons g gs ih =>
    intro st e h
    rcases List.mem_cons.mp h with heq | hmem
    · rw [List.foldl_cons]
      refine sweepFold_active_pres _ gs _ ?_
      intro e2 h2
      have := (List.mem_filter.mp h2).2
      subst heq
      simpa using this
    · rw [List.foldl_cons]
      exact ih _ e hmem

lemma sweepTimeAfter_spec (t0 d : ℕ) (h : t0 ≤ d) :
    (sweepTimeAfter t0 d - t0) % sweepIntervalMs = 0 ∧
    t0 ≤ sweepTimeAfter t0 d ∧
    d < sweepTimeAfter t0 d ∧
    sweepTimeAfter t0 d ≤ d + sweepIntervalMs := by
  simp only [sweepTimeAfter, sweepIntervalMs]
  omega

/-- C8 (confirmed): for an in-flight entry whose age exceeds
TaskTimeout, the first tick of the sweeper's 60 s interval (anchored at
t0, with t0 at or before the task's deadline) that lies past the
deadline arrives within TaskTimeout + SweepInterval of the task's
start; at that tick checkTaskTimeouts marks the entry's record failed,
deletes its partial-result hash, removes the entry from the in-flight
table, and pushes nothing onto the main queue or any dimension queue
(no requeue). -/
theorem c8_sweeper_fails_timed_out (s : SweepState) (e : InflightEntry)
    (t0 : ℕ)
    (hmem : e ∈ s.active)
    (hsched : t0 ≤ e.startTime + taskTimeoutMs) :
    (sweepTimeAfter t0 (e.startTime + taskTimeoutMs) - t0) % sweepIntervalMs
      = 0 ∧
    t0 ≤ sweepTimeAfter t0 (e.startTime + taskTimeoutMs) ∧
    e.startTime + taskTimeoutMs <
      sweepTimeAfter t0 (e.startTime + taskTimeoutMs) ∧
    sweepTimeAfter t0 (e.startTime + taskTimeoutMs) ≤
      e.startTime + taskTimeoutMs + sweepIntervalMs ∧
    (checkTaskTimeouts (sweepTimeAfter t0 (e.startTime + taskTimeoutMs)) s
      ).status e.responseId = Status.failed ∧
    (checkTaskTimeouts (sweepTimeAfter t0 (e.startTime + taskTimeoutMs)) s
      ).resultHash e.taskId = none ∧
    (∀ e2 ∈ (checkTaskTimeouts
        (sweepTimeAfter t0 (e.startTime + taskTimeoutMs)) s).active,
      e2.taskId ≠ e.taskId) ∧
    (checkTaskTimeouts (sweepTimeAfter t0 (e.startTime + taskTimeoutMs)) s
      ).mainQueue = s.mainQueue ∧
    (checkTaskTimeouts (sweepTimeAfter t0 (e.startTime + taskTimeoutMs)) s
      ).dimQueues = s.dimQueues := by
  obtain ⟨a1, a2, a3, a4⟩ :=
    sweepTimeAfter_spec t0 (e.startTime + taskTimeoutMs) hsched
  have hto : timedOutAt (sweepTimeAfter t0 (e.startTime + taskTimeoutMs)) e
      = true := by
    simp only [timedOutAt, decide_eq_true_eq]
    omega
  have hfil : e ∈ s.active.filter
      (timedOutAt (sweepTimeAfter t0 (e.startTime + taskTimeoutMs))) :=
    List.mem_filter.mpr ⟨hmem, hto⟩
  refine ⟨a1, a2, a3, a4, ?_, ?_, ?_, ?_, ?_⟩
  · exact sweepFold_status_mem _ s e hfil
  · exact sweepFold_hash_mem _ s e hfil
  · exact sweepFold_active_mem _ s e hfil
  · exact sweepFold_mainQueue _ s
  · exact sweepFold_dimQueues _ s

/-- An in-flight entry that started at time 0 with fewer than five
partial results, inside a concrete sweeper state. -/
def c8Entry : InflightEntry := ⟨"t1", "r1", 0⟩

/-- A concrete sweeper state holding that single stale entry. -/
def c8State : SweepState :=
  ⟨[c8Entry], fun _ => Status.processing,
   fun t => if t = "t1" then some (fun _ => none) else none, [], fun _ => []⟩

/-- C8 (witness): the sweeper theorem at the concrete stale entry —
the 360000 ms tick (= TaskTimeout + SweepInterval after start 0) marks
record r1 failed and leaves the main queue untouched. -/
theorem c8_witness :
    (c8Entry ∈ c8State.active ∧ 0 ≤ c8Entry.startTime + taskTimeoutMs) ∧
    (checkTaskTimeouts (sweepTimeAfter 0 (c8Entry.startTime + taskTimeoutMs))
      c8State).status "r1" = Status.failed ∧
    (checkTaskTimeouts (sweepTimeAfter 0 (c8Entry.startTime + taskTimeoutMs))
      c8State).mainQueue = [] := by
  have h := c8_sweeper_fails_timed_out c8State c8Entry 0
    (by simp [c8State, c8Entry]) (Nat.zero_le _)
  exact ⟨⟨by simp [c8State, c8Entry], Nat.zero_le _⟩,
    h.2.2.2.2.1, h.2.2.2.2.2.2.2.1⟩
